import Mathlib

/-
Verification of the january link-preview service.

The embedding follows the source files:
  src/util/result.rs      - the Error enum and its status-code mapping
  src/structs/media.rs    - Image, Video, ImageSize
  src/structs/special.rs  - Special, TwitchType, BandcampType
  src/structs/metadata.rs - Metadata, the meta-tag scan (Metadata::from),
                            resolve_image, generate_special, resolve_external,
                            is_none

HTML parsing (the tl crate) and the network collaborators (fetch,
consume_size from src/util/request.rs) are external to the core: the tag
scan is modelled on the list of (rel, href) attribute pairs of link tags
and the list of (property-or-name, content) attribute pairs of meta tags
in document order, exactly the data Metadata::from extracts from the DOM;
fetch and consume_size are explicit function parameters, with a call
counter recording how many times fetch is invoked.

The six provider regexes of generate_special are embedded as abstract
syntax trees for a small backtracking matcher implementing the rust regex
crate's leftmost-first preference semantics: alternation and the optional
operator prefer the left / consuming branch, and one-or-more repetition
over a character class (the only repetition these patterns use) is greedy
with backtracking.  A pattern anchored with a caret is matched at the
start of the haystack only; an unanchored pattern is matched at the
leftmost possible position.  The character classes for the rust escapes
are ASCII approximations of the crate's Unicode-aware classes; every
input these claims touch is ASCII, where the two agree.
-/

/-- Embeds the Error enum of src/util/result.rs. -/
inductive Error where
  | CouldNotDetermineImageSize
  | FailedToParseContentType
  | FailedToConsumeBytes
  | FailedToConsumeText
  | MetaSelectionFailed
  | MissingContentType
  | NotAllowedToProxy
  | ConversionFailed
  | ReqwestFailed
  | RequestFailed
  | LabelMe
  deriving DecidableEq, Repr

/-- Numeric value of actix StatusCode::BAD_REQUEST. -/
def BAD_REQUEST : Nat := 400

/-- Numeric value of actix StatusCode::INTERNAL_SERVER_ERROR. -/
def INTERNAL_SERVER_ERROR : Nat := 500

/-- Embeds Error::status_code of src/util/result.rs, arm for arm. -/
def Error.status_code : Error → Nat
  | Error.CouldNotDetermineImageSize => INTERNAL_SERVER_ERROR
  | Error.FailedToParseContentType => INTERNAL_SERVER_ERROR
  | Error.FailedToConsumeBytes => INTERNAL_SERVER_ERROR
  | Error.FailedToConsumeText => INTERNAL_SERVER_ERROR
  | Error.MetaSelectionFailed => INTERNAL_SERVER_ERROR
  | Error.MissingContentType => BAD_REQUEST
  | Error.NotAllowedToProxy => BAD_REQUEST
  | Error.ConversionFailed => INTERNAL_SERVER_ERROR
  | Error.ReqwestFailed => INTERNAL_SERVER_ERROR
  | Error.RequestFailed => BAD_REQUEST
  | Error.LabelMe => INTERNAL_SERVER_ERROR

/-- Embeds ImageSize of src/structs/media.rs. -/
inductive ImageSize where
  | Large
  | Preview
  deriving DecidableEq, Repr

/-- Embeds Image of src/structs/media.rs; isize is modelled as Int. -/
structure Image where
  url : String
  width : Int
  height : Int
  size : ImageSize
  deriving DecidableEq, Repr

/-- Image::default(): empty url, zero sizes, ImageSize::Preview. -/
def imageDefault : Image := { url := "", width := 0, height := 0, size := ImageSize.Preview }

/-- Embeds Video of src/structs/media.rs. -/
structure Video where
  url : String
  width : Int
  height : Int
  deriving DecidableEq, Repr

/-- Video::default(). -/
def videoDefault : Video := { url := "", width := 0, height := 0 }

/-- Embeds TwitchType of src/structs/special.rs. -/
inductive TwitchType where
  | Channel
  | Video
  | Clip
  deriving DecidableEq, Repr

/-- Embeds BandcampType of src/structs/special.rs. -/
inductive BandcampType where
  | Album
  | Track
  deriving DecidableEq, Repr

/-- Embeds Special of src/structs/special.rs; constructor arguments follow
the declaration order of the rust struct variants. -/
inductive Special where
  | None
  | YouTube (id : String) (timestamp : Option String)
  | Twitch (content_type : TwitchType) (id : String)
  | Spotify (content_type : String) (id : String)
  | Soundcloud
  | Bandcamp (content_type : BandcampType) (id : String)
  deriving DecidableEq, Repr

instance : DecidableEq (Except Error Special) := fun a b =>
  match a, b with
  | Except.ok x, Except.ok y =>
    match decEq x y with
    | isTrue h => isTrue (h ▸ rfl)
    | isFalse h => isFalse (fun hh => h (Except.ok.inj hh))
  | Except.error x, Except.error y =>
    match decEq x y with
    | isTrue h => isTrue (h ▸ rfl)
    | isFalse h => isFalse (fun hh => h (Except.error.inj hh))
  | Except.ok _, Except.error _ => isFalse (fun hh => Except.noConfusion hh)
  | Except.error _, Except.ok _ => isFalse (fun hh => Except.noConfusion hh)

/-- Value of a nonempty all-digit character list, as rust integer parsing
reads it; none when empty or when any character is not an ASCII digit. -/
def digitsVal (cs : List Char) : Option Nat :=
  if cs.isEmpty then none
  else if cs.all Char.isDigit then
    some (cs.foldl (fun acc c => acc * 10 + (c.toNat - '0'.toNat)) 0)
  else none

/-- Embeds value.parse::<isize>().unwrap_or_default(): an optional sign
followed by one or more digits, 0 on any parse failure, including 64-bit
overflow. -/
def parseIsizeOrZero (s : String) : Int :=
  let signed : Option Int :=
    match s.data with
    | '+' :: rest => (digitsVal rest).map (fun n => (n : Int))
    | '-' :: rest => (digitsVal rest).map (fun n => -(n : Int))
    | cs => (digitsVal cs).map (fun n => (n : Int))
  match signed with
  | some n => if -(2 ^ 63 : Int) ≤ n ∧ n < 2 ^ 63 then n else 0
  | none => 0

/-- Regular-expression syntax used by the six provider patterns: literal
character sets, sequencing, preference-ordered alternation, greedy
optional, greedy one-or-more over a character class, capture groups, and
the end-of-haystack anchor. -/
inductive RE where
  | eps
  | cset (p : Char → Bool)
  | seq (a b : RE)
  | alt (a b : RE)
  | opt (a : RE)
  | plus (p : Char → Bool)
  | group (i : Nat) (a : RE)
  | eos

/-- Capture environment: group index paired with the captured characters;
the most recent binding of an index is the one in force. -/
abbrev Caps := List (Nat × List Char)

/-- Greedy backtracking for one-or-more repetition: try consuming n
characters first, then fewer, never fewer than one. -/
def greedy (s : List Char) (caps : Caps) (k : List Char → Caps → Option Caps) : Nat → Option Caps
  | 0 => none
  | n + 1 => (k (s.drop (n + 1)) caps).orElse (fun _ => greedy s caps k n)

/-- Backtracking matcher in continuation-passing style with leftmost-first
preference: alternation tries the left branch first, the optional prefers
consuming, greedy repetition prefers longer. -/
def mtch : RE → List Char → Caps → (List Char → Caps → Option Caps) → Option Caps
  | RE.eps, s, caps, k => k s caps
  | RE.cset _, [], _, _ => none
  | RE.cset p, c :: s, caps, k => if p c then k s caps else none
  | RE.seq a b, s, caps, k => mtch a s caps (fun s2 caps2 => mtch b s2 caps2 k)
  | RE.alt a b, s, caps, k => (mtch a s caps k).orElse (fun _ => mtch b s caps k)
  | RE.opt a, s, caps, k => (mtch a s caps k).orElse (fun _ => k s caps)
  | RE.plus p, s, caps, k => greedy s caps k ((s.takeWhile p).length)
  | RE.group i a, s, caps, k =>
      mtch a s caps (fun s2 caps2 => k s2 ((i, s.take (s.length - s2.length)) :: caps2))
  | RE.eos, s, caps, k => if s.isEmpty then k s caps else none

/-- Match at the start of the haystack (a caret-anchored pattern can only
match there), returning the capture environment. -/
def matchAt (re : RE) (s : List Char) : Option Caps :=
  mtch re s [] (fun _ caps => some caps)

/-- First (leftmost) match of an unanchored pattern, as
Regex::captures_iter(...).next() returns it. -/
def findFirst (re : RE) : List Char → Option Caps
  | [] => matchAt re []
  | c :: s => (matchAt re (c :: s)).orElse (fun _ => findFirst re s)

/-- Captured text of group i, as captures[i].to_string() reads it. -/
def capStr (caps : Caps) (i : Nat) : String :=
  String.mk ((caps.lookup i).getD [])

/-- Single literal character. -/
def chr (c : Char) : RE := RE.cset (fun x => x == c)

/-- The regex dot: any character other than a newline. -/
def dotAny : RE := RE.cset (fun x => x != '\n')

/-- Literal character sequence. -/
def litList : List Char → RE
  | [] => RE.eps
  | c :: cs => RE.seq (chr c) (litList cs)

/-- Literal string. -/
def lit (s : String) : RE := litList s.data

/-- Sequencing of a list of pattern pieces. -/
def rcat : List RE → RE
  | [] => RE.eps
  | r :: rs => RE.seq r (rcat rs)

/-- ASCII approximation of the rust regex word character class. -/
def wordChar (c : Char) : Bool := c.isAlphanum || c == '_'

/-- Character class of one bracket expression: word character or dash. -/
def wordDash (c : Char) : Bool := wordChar c || c == '-'

/-- ASCII approximation of the non-whitespace class. -/
def nonSpace (c : Char) : Bool := !c.isWhitespace

/-- Character class [a-z0-9_]. -/
def lower09u (c : Char) : Bool :=
  (decide ('a' ≤ c) && decide (c ≤ 'z')) || c.isDigit || c == '_'

/-- Character class [0-9]; also the ASCII reading of the digit escape. -/
def digitC (c : Char) : Bool := c.isDigit

/-- Character class [A-z0-9_-]: note the A-z range of the source pattern
spans the ASCII characters between Z and a as well. -/
def atoz09uDash (c : Char) : Bool :=
  (decide ('A' ≤ c) && decide (c ≤ 'z')) || c.isDigit || c == '_' || c == '-'

/-- Character class [A-z0-9]. -/
def atoz09 (c : Char) : Bool :=
  (decide ('A' ≤ c) && decide (c ≤ 'z')) || c.isDigit

/-- Character class [a-zA-Z0-9-]. -/
def alnumDash (c : Char) : Bool := c.isAlphanum || c == '-'

/-- Character class [A-z0-9-]. -/
def atoz09Dash (c : Char) : Bool :=
  (decide ('A' ≤ c) && decide (c ≤ 'z')) || c.isDigit || c == '-'

/-- The optional scheme piece (?:https?://)? shared by five patterns. -/
def reProto : RE := RE.opt (rcat [lit "http", RE.opt (chr 's'), lit "://"])

/-- The optional twitch host piece (?:www\.|go\.)?. -/
def reTwitchHost : RE := RE.opt (RE.alt (lit "www.") (lit "go."))

/-- RE_YOUTUBE, anchored:
pattern (?:(?:https?:)?//)?(?:(?:www|m)\.)?(?:(?:youtube\.com|youtu.be))(?:/(?:[\w\-]+\?v=|embed/|v/)?)([\w\-]+)(?:\S+)?$
with the unescaped dot of youtu.be kept as the any-character dot. -/
def RE_YOUTUBE : RE := rcat [
  RE.opt (rcat [RE.opt (rcat [lit "http", RE.opt (chr 's'), chr ':']), lit "//"]),
  RE.opt (rcat [RE.alt (lit "www") (lit "m"), chr '.']),
  RE.alt (lit "youtube.com") (rcat [lit "youtu", dotAny, lit "be"]),
  chr '/',
  RE.opt (RE.alt (rcat [RE.plus wordDash, lit "?v="]) (RE.alt (lit "embed/") (lit "v/"))),
  RE.group 1 (RE.plus wordDash),
  RE.opt (RE.plus nonSpace),
  RE.eos]

/-- RE_TWITCH, anchored:
pattern (?:https?://)?(?:www\.|go\.)?twitch\.tv/([a-z0-9_]+)($|\?) -/
def RE_TWITCH : RE := rcat [
  reProto, reTwitchHost, lit "twitch.tv/",
  RE.group 1 (RE.plus lower09u),
  RE.group 2 (RE.alt RE.eos (chr '?'))]

/-- RE_TWITCH_VOD, anchored:
pattern (?:https?://)?(?:www\.|go\.)?twitch\.tv/videos/([0-9]+)($|\?) -/
def RE_TWITCH_VOD : RE := rcat [
  reProto, reTwitchHost, lit "twitch.tv/videos/",
  RE.group 1 (RE.plus digitC),
  RE.group 2 (RE.alt RE.eos (chr '?'))]

/-- RE_TWITCH_CLIP, anchored:
pattern (?:https?://)?(?:www\.|go\.)?twitch\.tv/(?:[a-z0-9_]+)/clip/([A-z0-9_-]+)($|\?) -/
def RE_TWITCH_CLIP : RE := rcat [
  reProto, reTwitchHost, lit "twitch.tv/",
  RE.plus lower09u, lit "/clip/",
  RE.group 1 (RE.plus atoz09uDash),
  RE.group 2 (RE.alt RE.eos (chr '?'))]

/-- RE_SPOTIFY, anchored:
pattern (?:https?://)?open.spotify.com/(track|user|artist|album|playlist)/([A-z0-9]+)
with the two unescaped dots kept as the any-character dot. -/
def RE_SPOTIFY : RE := rcat [
  reProto, lit "open", dotAny, lit "spotify", dotAny, lit "com/",
  RE.group 1 (RE.alt (lit "track") (RE.alt (lit "user")
    (RE.alt (lit "artist") (RE.alt (lit "album") (lit "playlist"))))),
  chr '/',
  RE.group 2 (RE.plus atoz09)]

/-- RE_SOUNDCLOUD, anchored:
pattern (?:https?://)?soundcloud.com/([a-zA-Z0-9-]+)/([A-z0-9-]+)
with the unescaped dot kept as the any-character dot. -/
def RE_SOUNDCLOUD : RE := rcat [
  reProto, lit "soundcloud", dotAny, lit "com/",
  RE.group 1 (RE.plus alnumDash),
  chr '/',
  RE.group 2 (RE.plus atoz09Dash)]

/-- RE_BANDCAMP, anchored:
pattern (?:https?://)?(?:[A-z0-9_-]+).bandcamp.com/(track|album)/([A-z0-9_-]+)
with the unescaped dots kept as the any-character dot. -/
def RE_BANDCAMP : RE := rcat [
  reProto, RE.plus atoz09uDash, dotAny, lit "bandcamp", dotAny, lit "com/",
  RE.group 1 (RE.alt (lit "track") (lit "album")),
  chr '/',
  RE.group 2 (RE.plus atoz09uDash)]

/-- RE_TIMESTAMP, unanchored: pattern (?:\?|&)(?:t|start)=([\w]+) -/
def RE_TIMESTAMP : RE := rcat [
  RE.alt (chr '?') (chr '&'),
  RE.alt (lit "t") (lit "start"),
  chr '=',
  RE.group 1 (RE.plus wordChar)]

/-- RE_TRACK, unanchored: pattern track=(\d+) -/
def RE_TRACK : RE := rcat [lit "track=", RE.group 1 (RE.plus digitC)]

/-- RE_ALBUM, unanchored: pattern album=(\d+) -/
def RE_ALBUM : RE := rcat [lit "album=", RE.group 1 (RE.plus digitC)]

/-- Embeds the Metadata struct of src/structs/metadata.rs. -/
structure Metadata where
  url : String
  special : Option Special
  title : Option String
  description : Option String
  image : Option Image
  video : Option Video
  opengraph_type : Option String
  site_name : Option String
  icon_url : Option String
  colour : Option String
  deriving DecidableEq, Repr

/-- Metadata::default(). -/
def metadataDefault : Metadata :=
  { url := "", special := none, title := none, description := none,
    image := none, video := none, opengraph_type := none, site_name := none,
    icon_url := none, colour := none }

/-- The link scan of Metadata::from: the first link tag whose rel is
apple-touch-icon or icon supplies its href.  Input is the (rel, href)
pairs of the link tags in document order. -/
def findIconHref : List (String × String) → Option String
  | [] => none
  | (rel, href) :: rest =>
    if rel == "apple-touch-icon" || rel == "icon" then some href
    else findIconHref rest

/-- One iteration of the meta-tag dispatch loop of Metadata::from, arm for
arm against the match on the tag's name bytes. -/
def tagStep (metadata : Metadata) (prop : String × String) : Metadata :=
  let (name, value) := prop
  match name with
  | "og:title" | "twitter:title" | "title" =>
    if metadata.title.isSome then metadata
    else { metadata with title := some value }
  | "og:description" | "twitter:description" | "description" =>
    if metadata.description.isSome then metadata
    else { metadata with description := some value }
  | "og:image" | "og:image:secure_url" | "twitter:image" | "twitter:image:src" =>
    if metadata.image.isSome then metadata
    else { metadata with image := some { imageDefault with url := value } }
  | "og:image:width" =>
    { metadata with
      image := some { metadata.image.getD imageDefault with width := parseIsizeOrZero value } }
  | "og:image:height" =>
    { metadata with
      image := some { metadata.image.getD imageDefault with height := parseIsizeOrZero value } }
  | "og:video" | "og:video:secure_url" | "twitter:video" | "twitter:video:src" =>
    if metadata.video.isSome then metadata
    else { metadata with video := some { videoDefault with url := value } }
  | "og:video:width" =>
    { metadata with
      video := some { metadata.video.getD videoDefault with width := parseIsizeOrZero value } }
  | "og:video:height" =>
    { metadata with
      video := some { metadata.video.getD videoDefault with height := parseIsizeOrZero value } }
  | "twitter:card" =>
    if value == "summary_large_image" then
      { metadata with
        image := some { metadata.image.getD imageDefault with size := ImageSize.Large } }
    else metadata
  | "theme-color" => { metadata with colour := some value }
  | "og:type" => { metadata with opengraph_type := some value }
  | "og:site_name" => { metadata with site_name := some value }
  | "og:url" => { metadata with url := value }
  | _ => metadata

/-- The whole meta-tag loop of Metadata::from over the (name, content)
pairs in document order. -/
def processTags (metadata : Metadata) (props : List (String × String)) : Metadata :=
  props.foldl tagStep metadata

/-- Embeds Metadata::from given the parsed document: the fallback url is
replaced by the first icon link when one exists, then the meta tags are
scanned.  (The name from is a Lean keyword.) -/
def Metadata.fromTags (url : String) (links props : List (String × String)) : Metadata :=
  processTags { metadataDefault with url := (findIconHref links).getD url } props

/-- Embeds Metadata::is_none. -/
def Metadata.is_none (m : Metadata) : Bool :=
  m.title.isNone && m.description.isNone && m.image.isNone

/-- Whether a Result is the Err variant. -/
def exceptIsErr {ε α : Type} : Except ε α → Bool
  | Except.error _ => true
  | Except.ok _ => false

/-- Embeds Metadata::resolve_image.  fetch and consume_size are the
collaborators of src/util/request.rs, passed as parameters over an
abstract response type R; the final component counts fetch calls.
On an error the metadata is returned unchanged, as the rust method
returns Err before any assignment to the image. -/
def Metadata.resolve_image {R : Type} (fetch : String → Except Error R)
    (consume_size : R → Except Error (Int × Int)) (m : Metadata) :
    Except Error Unit × Metadata × Nat :=
  match m.image with
  | none => (Except.ok (), m, 0)
  | some image =>
    if image.width ≠ 0 ∧ image.height ≠ 0 then (Except.ok (), m, 0)
    else
      match fetch image.url with
      | Except.error e => (Except.error e, m, 1)
      | Except.ok resp =>
        match consume_size resp with
        | Except.error e => (Except.error e, m, 1)
        | Except.ok (width, height) =>
          (Except.ok (),
           { m with image := some { image with width := width, height := height } }, 1)

/-- Embeds Metadata::generate_special: the ordered first-match-wins rule
chain over the canonical url, with the YouTube and Bandcamp arms reading
the captured video url.  A branch of the rust if-else chain that returns
nothing falls through to the final Ok(Special::None). -/
def Metadata.generate_special (m : Metadata) : Except Error Special :=
  match matchAt RE_YOUTUBE m.url.data with
  | some caps =>
    (match m.video with
     | some video =>
       (match findFirst RE_TIMESTAMP video.url.data with
        | some tcaps =>
          Except.ok (Special.YouTube (capStr caps 1) (some (capStr tcaps 1)))
        | none => Except.ok (Special.YouTube (capStr caps 1) none))
     | none => Except.ok Special.None)
  | none =>
  match matchAt RE_TWITCH m.url.data with
  | some caps => Except.ok (Special.Twitch TwitchType.Channel (capStr caps 1))
  | none =>
  match matchAt RE_TWITCH_VOD m.url.data with
  | some caps => Except.ok (Special.Twitch TwitchType.Video (capStr caps 1))
  | none =>
  match matchAt RE_TWITCH_CLIP m.url.data with
  | some caps => Except.ok (Special.Twitch TwitchType.Clip (capStr caps 1))
  | none =>
  match matchAt RE_SPOTIFY m.url.data with
  | some caps => Except.ok (Special.Spotify (capStr caps 1) (capStr caps 2))
  | none =>
  if (matchAt RE_SOUNDCLOUD m.url.data).isSome then Except.ok Special.Soundcloud
  else if (matchAt RE_BANDCAMP m.url.data).isSome then
    match m.video with
    | some video =>
      (match findFirst RE_TRACK video.url.data with
       | some caps => Except.ok (Special.Bandcamp BandcampType.Track (capStr caps 1))
       | none =>
         match findFirst RE_ALBUM video.url.data with
         | some caps => Except.ok (Special.Bandcamp BandcampType.Album (capStr caps 1))
         | none => Except.ok Special.None)
    | none => Except.ok Special.None
  else Except.ok Special.None

/-- Embeds Metadata::resolve_external: assign the special variant when
generate_special succeeds, then clear the image when resolve_image
fails.  The function is total: no error propagates out of it. -/
def Metadata.resolve_external {R : Type} (fetch : String → Except Error R)
    (consume_size : R → Except Error (Int × Int)) (m : Metadata) : Metadata :=
  let m1 :=
    match m.generate_special with
    | Except.ok special => { m with special := some special }
    | Except.error _ => m
  match Metadata.resolve_image fetch consume_size m1 with
  | (Except.ok _, m2, _) => m2
  | (Except.error _, m2, _) => { m2 with image := none }

theorem orElse_isSome_left {o : Option Caps} {f : Unit → Option Caps}
    (h : o.isSome = true) : (o.orElse f).isSome = true := by
  cases o with
  | none => simp at h
  | some a => rfl

theorem S_eps {s : List Char} {caps : Caps} {k : List Char → Caps → Option Caps}
    (h : (k s caps).isSome = true) : (mtch RE.eps s caps k).isSome = true := h

theorem S_seq {a b : RE} {s : List Char} {caps : Caps} {k : List Char → Caps → Option Caps}
    (h : (mtch a s caps (fun s2 caps2 => mtch b s2 caps2 k)).isSome = true) :
    (mtch (RE.seq a b) s caps k).isSome = true := h

theorem S_opt {r : RE} {s : List Char} {caps : Caps} {k : List Char → Caps → Option Caps}
    (h : (mtch r s caps k).isSome = true) :
    (mtch (RE.opt r) s caps k).isSome = true := orElse_isSome_left h

theorem S_cset {p : Char → Bool} {c : Char} {rest : List Char} {caps : Caps}
    {k : List Char → Caps → Option Caps} (hc : p c = true)
    (h : (k rest caps).isSome = true) : (mtch (RE.cset p) (c :: rest) caps k).isSome = true := by
  have e : mtch (RE.cset p) (c :: rest) caps k = k rest caps := by simp [mtch, hc]
  rw [e]; exact h

theorem S_group {i : Nat} {r : RE} {s : List Char} {caps : Caps}
    {k : List Char → Caps → Option Caps}
    (h : (mtch r s caps
      (fun s2 caps2 => k s2 ((i, s.take (s.length - s2.length)) :: caps2))).isSome = true) :
    (mtch (RE.group i r) s caps k).isSome = true := h

theorem S_lit {w rest : List Char} {caps : Caps} {k : List Char → Caps → Option Caps}
    (h : (k rest caps).isSome = true) :
    (mtch (litList w) (w ++ rest) caps k).isSome = true := by
  induction w generalizing caps with
  | nil => exact h
  | cons c cs ih =>
    apply S_seq
    apply S_cset (by simp)
    exact ih h

theorem takeWhile_all {p : Char → Bool} {l : List Char} (h : ∀ c ∈ l, p c = true) :
    l.takeWhile p = l := by
  induction l with
  | nil => rfl
  | cons c cs ih =>
    simp [List.takeWhile_cons, h c (by simp)]
    exact fun x hx => h x (by simp [hx])

theorem takeWhile_append_stop {p : Char → Bool} {a b : List Char} {x : Char}
    (ha : ∀ c ∈ a, p c = true) (hx : p x = false) :
    (a ++ x :: b).takeWhile p = a := by
  induction a with
  | nil => simp [List.takeWhile_cons, hx]
  | cons c cs ih =>
    simp [List.takeWhile_cons, ha c (by simp)]
    exact ih fun y hy => ha y (by simp [hy])

theorem S_plus_seg {p : Char → Bool} {a b : List Char} {x : Char} {caps : Caps}
    {k : List Char → Caps → Option Caps} (ha : a ≠ []) (h1 : ∀ c ∈ a, p c = true)
    (hx : p x = false) (hk : (k (x :: b) caps).isSome = true) :
    (mtch (RE.plus p) (a ++ x :: b) caps k).isSome = true := by
  show (greedy (a ++ x :: b) caps k (((a ++ x :: b).takeWhile p).length)).isSome = true
  rw [takeWhile_append_stop h1 hx]
  obtain ⟨c, a2, rfl⟩ : ∃ c a2, a = c :: a2 := by
    cases a with
    | nil => exact absurd rfl ha
    | cons c a2 => exact ⟨c, a2, rfl⟩
  show (greedy ((c :: a2) ++ x :: b) caps k (a2.length + 1)).isSome = true
  apply orElse_isSome_left
  have hd : ((c :: a2) ++ x :: b).drop (a2.length + 1) = x :: b :=
    List.drop_left (c :: a2) (x :: b)
  rw [hd]; exact hk

theorem S_plus_all {p : Char → Bool} {b : List Char} {caps : Caps}
    {k : List Char → Caps → Option Caps} (hb : b ≠ []) (h1 : ∀ c ∈ b, p c = true)
    (hk : (k [] caps).isSome = true) :
    (mtch (RE.plus p) b caps k).isSome = true := by
  show (greedy b caps k ((b.takeWhile p).length)).isSome = true
  rw [takeWhile_all h1]
  obtain ⟨c, b2, rfl⟩ : ∃ c b2, b = c :: b2 := by
    cases b with
    | nil => exact absurd rfl hb
    | cons c b2 => exact ⟨c, b2, rfl⟩
  show (greedy (c :: b2) caps k (b2.length + 1)).isSome = true
  apply orElse_isSome_left
  rw [show (c :: b2).drop (b2.length + 1) = [] from List.drop_length (c :: b2)]
  exact hk

theorem sc_matches (a b : List Char) (ha : a ≠ []) (hb : b ≠ [])
    (h1 : ∀ c ∈ a, alnumDash c = true) (h2 : ∀ c ∈ b, atoz09Dash c = true) :
    (matchAt RE_SOUNDCLOUD ("https://soundcloud.com/".data ++ (a ++ '/' :: b))).isSome = true := by
  apply S_seq
  apply S_opt
  apply S_seq
  apply S_lit
  apply S_seq
  apply S_opt
  apply S_cset (by rfl)
  apply S_seq
  apply S_lit
  apply S_eps
  apply S_seq
  apply S_lit
  apply S_seq
  apply S_cset (by rfl)
  apply S_seq
  apply S_lit
  apply S_seq
  apply S_group
  apply S_plus_seg ha h1 (by rfl)
  apply S_seq
  apply S_cset (by rfl)
  apply S_seq
  apply S_group
  apply S_plus_all hb h2
  rfl

theorem tagStep_title {m : Metadata} {p : String × String} {t : String}
    (h : m.title = some t) : (tagStep m p).title = some t := by
  obtain ⟨name, value⟩ := p
  unfold tagStep
  repeat' split
  all_goals simp_all

theorem tagStep_description {m : Metadata} {p : String × String} {t : String}
    (h : m.description = some t) : (tagStep m p).description = some t := by
  obtain ⟨name, value⟩ := p
  unfold tagStep
  repeat' split
  all_goals simp_all

theorem tagStep_image {m : Metadata} {p : String × String} {i : Image}
    (h : m.image = some i) :
    ∃ i2 : Image, (tagStep m p).image = some i2 ∧ i2.url = i.url := by
  obtain ⟨name, value⟩ := p
  unfold tagStep
  repeat' split
  all_goals simp_all

theorem tagStep_video {m : Metadata} {p : String × String} {w : Video}
    (h : m.video = some w) :
    ∃ w2 : Video, (tagStep m p).video = some w2 ∧ w2.url = w.url := by
  obtain ⟨name, value⟩ := p
  unfold tagStep
  repeat' split
  all_goals simp_all

theorem tagStep_icon {m : Metadata} {p : String × String} :
    (tagStep m p).icon_url = m.icon_url := by
  obtain ⟨name, value⟩ := p
  unfold tagStep
  repeat' split
  all_goals simp_all

theorem tagStep_url {m : Metadata} {name value : String} (h : name ≠ "og:url") :
    (tagStep m (name, value)).url = m.url := by
  unfold tagStep
  repeat' split
  all_goals simp_all

theorem processTags_title {t : String} (ps : List (String × String)) (m : Metadata)
    (h : m.title = some t) : (processTags m ps).title = some t := by
  induction ps generalizing m with
  | nil => exact h
  | cons p ps ih => exact ih _ (tagStep_title h)

theorem processTags_description {t : String} (ps : List (String × String)) (m : Metadata)
    (h : m.description = some t) : (processTags m ps).description = some t := by
  induction ps generalizing m with
  | nil => exact h
  | cons p ps ih => exact ih _ (tagStep_description h)

theorem processTags_image {i : Image} (ps : List (String × String)) (m : Metadata)
    (h : m.image = some i) :
    ∃ i2 : Image, (processTags m ps).image = some i2 ∧ i2.url = i.url := by
  induction ps generalizing m i with
  | nil => exact ⟨i, h, rfl⟩
  | cons p ps ih =>
    obtain ⟨i2, h2, hu2⟩ := tagStep_image (p := p) h
    obtain ⟨i3, h3, hu3⟩ := ih _ h2
    exact ⟨i3, h3, hu3.trans hu2⟩

theorem processTags_video {w : Video} (ps : List (String × String)) (m : Metadata)
    (h : m.video = some w) :
    ∃ w2 : Video, (processTags m ps).video = some w2 ∧ w2.url = w.url := by
  induction ps generalizing m w with
  | nil => exact ⟨w, h, rfl⟩
  | cons p ps ih =>
    obtain ⟨w2, h2, hu2⟩ := tagStep_video (p := p) h
    obtain ⟨w3, h3, hu3⟩ := ih _ h2
    exact ⟨w3, h3, hu3.trans hu2⟩

theorem processTags_icon (ps : List (String × String)) (m : Metadata) :
    (processTags m ps).icon_url = m.icon_url := by
  induction ps generalizing m with
  | nil => rfl
  | cons p ps ih => exact (ih _).trans tagStep_icon

theorem processTags_url (ps : List (String × String)) (m : Metadata)
    (h : ∀ p ∈ ps, p.1 ≠ "og:url") : (processTags m ps).url = m.url := by
  induction ps generalizing m with
  | nil => rfl
  | cons p ps ih =>
    have hp : p.1 ≠ "og:url" := h p (by simp)
    have tail := ih (tagStep m p) (fun q hq => h q (by simp [hq]))
    have step : (tagStep m p).url = m.url := by
      obtain ⟨name, value⟩ := p
      exact tagStep_url hp
    exact tail.trans step

theorem processTags_append (m : Metadata) (ps qs : List (String × String)) :
    processTags m (ps ++ qs) = processTags (processTags m ps) qs :=
  List.foldl_append tagStep m ps qs

theorem resolve_image_special {R : Type} (fetch : String → Except Error R)
    (consume_size : R → Except Error (Int × Int)) (m : Metadata) (sp : Option Special) :
    Metadata.resolve_image fetch consume_size { m with special := sp } =
      ((Metadata.resolve_image fetch consume_size m).1,
       { (Metadata.resolve_image fetch consume_size m).2.1 with special := sp },
       (Metadata.resolve_image fetch consume_size m).2.2) := by
  obtain ⟨u, s0, ti, de, im, vi, og, si, ic, co⟩ := m
  cases im with
  | none => rfl
  | some image =>
    unfold Metadata.resolve_image
    by_cases hwh : image.width ≠ 0 ∧ image.height ≠ 0
    · simp [hwh]
    · simp only [hwh, if_false]
      cases hf : fetch image.url with
      | error e => simp [hf]
      | ok r =>
        cases hc : consume_size r with
        | error e => simp [hf, hc]
        | ok wh =>
          obtain ⟨w2, h2⟩ := wh
          simp [hf, hc]

theorem resolve_external_err {R : Type} (fetch : String → Except Error R)
    (consume_size : R → Except Error (Int × Int)) (m : Metadata)
    (hfail : exceptIsErr (Metadata.resolve_image fetch consume_size m).1 = true) :
    (Metadata.resolve_external fetch consume_size m).image = none := by
  unfold Metadata.resolve_external
  rcases htri : Metadata.resolve_image fetch consume_size m with ⟨r1, m2, n⟩
  rw [htri] at hfail
  cases hg : m.generate_special with
  | ok sp =>
    simp only [hg, resolve_image_special, htri]
    cases r1 with
    | ok v => simp [exceptIsErr] at hfail
    | error e => rfl
  | error e2 =>
    simp only [hg, htri]
    cases r1 with
    | ok v => simp [exceptIsErr] at hfail
    | error e => rfl

theorem tagStep_og_title (M : Metadata) (t : String) (h : M.title = none) :
    (tagStep M ("og:title", t)).title = some t := by
  have e : M.title.isSome = false := by rw [h]; rfl
  show (if M.title.isSome then M else { M with title := some t }).title = some t
  rw [e]; rfl

theorem tagStep_og_description (M : Metadata) (t : String) (h : M.description = none) :
    (tagStep M ("og:description", t)).description = some t := by
  have e : M.description.isSome = false := by rw [h]; rfl
  show (if M.description.isSome then M else { M with description := some t }).description = some t
  rw [e]; rfl

theorem tagStep_og_image_new (M : Metadata) (u : String) (h : M.image = none) :
    (tagStep M ("og:image", u)).image
      = some { url := u, width := 0, height := 0, size := ImageSize.Preview } := by
  have e : M.image.isSome = false := by rw [h]; rfl
  show (if M.image.isSome then M
        else { M with image := some { imageDefault with url := u } }).image = _
  rw [e]; rfl

theorem tagStep_og_video_new (M : Metadata) (u : String) (h : M.video = none) :
    (tagStep M ("og:video", u)).video = some { url := u, width := 0, height := 0 } := by
  have e : M.video.isSome = false := by rw [h]; rfl
  show (if M.video.isSome then M
        else { M with video := some { videoDefault with url := u } }).video = _
  rw [e]; rfl

theorem resolve_image_icon {R : Type} (fetch : String → Except Error R)
    (consume_size : R → Except Error (Int × Int)) (M : Metadata) :
    (Metadata.resolve_image fetch consume_size M).2.1.icon_url = M.icon_url := by
  obtain ⟨u, s0, ti, de, im, vi, og, si, ic, co⟩ := M
  cases im with
  | none => rfl
  | some image =>
    unfold Metadata.resolve_image
    by_cases hwh : image.width ≠ 0 ∧ image.height ≠ 0
    · simp [hwh]
    · simp only [hwh, if_false]
      cases hf : fetch image.url with
      | error e => simp [hf]
      | ok r =>
        cases hc : consume_size r with
        | error e => simp [hf, hc]
        | ok wh =>
          obtain ⟨w2, h2⟩ := wh
          simp [hf, hc]

theorem resolve_image_none {R : Type} (fetch : String → Except Error R)
    (consume_size : R → Except Error (Int × Int)) (M : Metadata) (him : M.image = none) :
    Metadata.resolve_image fetch consume_size M = (Except.ok (), M, 0) := by
  unfold Metadata.resolve_image
  rw [him]

theorem resolve_image_nonzero {R : Type} (fetch : String → Except Error R)
    (consume_size : R → Except Error (Int × Int)) (M : Metadata) (i : Image)
    (him : M.image = some i) (hwh : i.width ≠ 0 ∧ i.height ≠ 0) :
    Metadata.resolve_image fetch consume_size M = (Except.ok (), M, 0) := by
  unfold Metadata.resolve_image
  rw [him]
  simp [hwh]

theorem resolve_image_fetch_err {R : Type} (fetch : String → Except Error R)
    (consume_size : R → Except Error (Int × Int)) (M : Metadata) (i : Image) (e : Error)
    (him : M.image = some i) (hwh : ¬(i.width ≠ 0 ∧ i.height ≠ 0))
    (hf : fetch i.url = Except.error e) :
    Metadata.resolve_image fetch consume_size M = (Except.error e, M, 1) := by
  unfold Metadata.resolve_image
  rw [him]
  simp [hwh, hf]

theorem resolve_image_cs_err {R : Type} (fetch : String → Except Error R)
    (consume_size : R → Except Error (Int × Int)) (M : Metadata) (i : Image) (r : R) (e : Error)
    (him : M.image = some i) (hwh : ¬(i.width ≠ 0 ∧ i.height ≠ 0))
    (hf : fetch i.url = Except.ok r) (hc : consume_size r = Except.error e) :
    Metadata.resolve_image fetch consume_size M = (Except.error e, M, 1) := by
  unfold Metadata.resolve_image
  rw [him]
  simp [hwh, hf, hc]

theorem resolve_image_cs_ok {R : Type} (fetch : String → Except Error R)
    (consume_size : R → Except Error (Int × Int)) (M : Metadata) (i : Image) (r : R)
    (w2 h2 : Int) (him : M.image = some i) (hwh : ¬(i.width ≠ 0 ∧ i.height ≠ 0))
    (hf : fetch i.url = Except.ok r) (hc : consume_size r = Except.ok (w2, h2)) :
    Metadata.resolve_image fetch consume_size M
      = (Except.ok (), { M with image := some { i with width := w2, height := h2 } }, 1) := by
  unfold Metadata.resolve_image
  rw [him]
  simp [hwh, hf, hc]

theorem resolve_image_image_cases {R : Type} (fetch : String → Except Error R)
    (consume_size : R → Except Error (Int × Int)) (M : Metadata) (i : Image)
    (hcs : ∀ r w h, consume_size r = Except.ok (w, h) → 0 < w ∧ 0 < h)
    (hok : exceptIsErr (Metadata.resolve_image fetch consume_size M).1 = false)
    (hi : (Metadata.resolve_image fetch consume_size M).2.1.image = some i) :
    i.width ≠ 0 ∧ i.height ≠ 0 := by
  rcases hM : M.image with _ | i0
  · rw [resolve_image_none fetch consume_size M hM] at hi
    simp [hM] at hi
  · by_cases hwh : i0.width ≠ 0 ∧ i0.height ≠ 0
    · rw [resolve_image_nonzero fetch consume_size M i0 hM hwh] at hi
      simp only [] at hi
      rw [hM] at hi
      obtain rfl : i0 = i := Option.some.inj hi
      exact hwh
    · cases hf : fetch i0.url with
      | error e =>
        rw [resolve_image_fetch_err fetch consume_size M i0 e hM hwh hf] at hok
        simp [exceptIsErr] at hok
      | ok r =>
        cases hc : consume_size r with
        | error e =>
          rw [resolve_image_cs_err fetch consume_size M i0 r e hM hwh hf hc] at hok
          simp [exceptIsErr] at hok
        | ok wh =>
          obtain ⟨w2, h2⟩ := wh
          rw [resolve_image_cs_ok fetch consume_size M i0 r w2 h2 hM hwh hf hc] at hi
          simp at hi
          obtain ⟨hw2, hh2⟩ := hcs r w2 h2 hc
          rw [← hi]
          exact ⟨by simpa using ne_of_gt hw2, by simpa using ne_of_gt hh2⟩

/-- C1 counterexample: for the canonical url
https://www.youtube.com/watch?v=abc123&t=30 with no captured video url,
generate_special returns Special::None, not a YouTube variant with an
absent timestamp: the rust YouTube arm only returns a value inside its
if-let on self.video, and otherwise falls through to Ok(Special::None). -/
theorem youtube_no_video_counterexample :
    Metadata.generate_special
      { metadataDefault with url := "https://www.youtube.com/watch?v=abc123&t=30" }
      = Except.ok Special.None
    ∧ (Except.ok Special.None : Except Error Special)
        ≠ Except.ok (Special.YouTube "abc123" none) := by
  constructor
  · decide
  · decide

/-- C1 as amended: on https://www.youtube.com/watch?v=abc123&t=30 the
resolver returns YouTube with id abc123 and timestamp 30 when a video url
carrying t=30 was captured, YouTube with an absent timestamp when a video
url without a t=/start= parameter was captured, and Special::None when no
video url was captured at all. -/
theorem youtube_timestamp_amended :
    Metadata.generate_special
      { metadataDefault with
        url := "https://www.youtube.com/watch?v=abc123&t=30",
        video := some { videoDefault with url := "https://www.youtube.com/embed/abc123?t=30" } }
      = Except.ok (Special.YouTube "abc123" (some "30"))
    ∧ Metadata.generate_special
        { metadataDefault with
          url := "https://www.youtube.com/watch?v=abc123&t=30",
          video := some { videoDefault with url := "https://www.youtube.com/embed/abc123" } }
        = Except.ok (Special.YouTube "abc123" none)
    ∧ Metadata.generate_special
        { metadataDefault with url := "https://www.youtube.com/watch?v=abc123&t=30" }
        = Except.ok Special.None := by
  refine ⟨?_, ?_, ?_⟩
  · decide
  · decide
  · decide

/-- C2 counterexample: https://soundcloud.com/foo has the soundcloud.com
domain but only one path segment; RE_SOUNDCLOUD demands two, so
generate_special returns Special::None rather than Soundcloud. -/
theorem soundcloud_domain_only_counterexample :
    Metadata.generate_special { metadataDefault with url := "https://soundcloud.com/foo" }
      = Except.ok Special.None
    ∧ (Except.ok Special.None : Except Error Special) ≠ Except.ok Special.Soundcloud := by
  constructor
  · decide
  · decide

/-- C2 as amended: the SoundCloud rule is not domain-only.  It requires
the soundcloud.com host followed by two nonempty path segments, the first
over [a-zA-Z0-9-] and the second over [A-z0-9-]; every such url resolves
to the payload-free Soundcloud variant whatever video url was captured. -/
theorem soundcloud_two_segments (a b : List Char) (v : Option Video) (ha : a ≠ []) (hb : b ≠ [])
    (h1 : ∀ c ∈ a, alnumDash c = true) (h2 : ∀ c ∈ b, atoz09Dash c = true) :
    Metadata.generate_special
      { metadataDefault with
        url := String.mk ("https://soundcloud.com/".data ++ (a ++ '/' :: b)), video := v }
      = Except.ok Special.Soundcloud := by
  have hy : matchAt RE_YOUTUBE ("https://soundcloud.com/".data ++ (a ++ '/' :: b)) = none := rfl
  have ht : matchAt RE_TWITCH ("https://soundcloud.com/".data ++ (a ++ '/' :: b)) = none := rfl
  have hv : matchAt RE_TWITCH_VOD ("https://soundcloud.com/".data ++ (a ++ '/' :: b)) = none := rfl
  have hcl : matchAt RE_TWITCH_CLIP ("https://soundcloud.com/".data ++ (a ++ '/' :: b)) = none :=
    rfl
  have hs : matchAt RE_SPOTIFY ("https://soundcloud.com/".data ++ (a ++ '/' :: b)) = none := rfl
  have hsc := sc_matches a b ha hb h1 h2
  simp only [Metadata.generate_special, hy, ht, hv, hcl, hs, hsc]
  simp

theorem soundcloud_two_segments_witness :
    Metadata.generate_special
      { metadataDefault with
        url := String.mk ("https://soundcloud.com/".data ++ (['f', 'o', 'o'] ++ '/' :: ['b', 'a', 'r'])),
        video := none }
      = Except.ok Special.Soundcloud :=
  soundcloud_two_segments ['f', 'o', 'o'] ['b', 'a', 'r'] none (by decide) (by decide)
    (by decide) (by decide)

/-- C3 counterexample: the malformed content-type kind,
Error::FailedToParseContentType, maps to the server/internal class (500),
not to the client/policy class (400) the claim asserts. -/
theorem content_type_status_counterexample :
    Error.status_code Error.FailedToParseContentType = INTERNAL_SERVER_ERROR
    ∧ Error.status_code Error.FailedToParseContentType ≠ BAD_REQUEST := by
  constructor
  · rfl
  · decide

/-- C3 as amended: disallowed proxy target, missing content-type and the
generic request failure map to the client class 400; the malformed
content-type kind joins every decode, parse or conversion failure in the
server class 500. -/
theorem status_code_mapping :
    Error.status_code Error.NotAllowedToProxy = BAD_REQUEST
    ∧ Error.status_code Error.MissingContentType = BAD_REQUEST
    ∧ Error.status_code Error.RequestFailed = BAD_REQUEST
    ∧ Error.status_code Error.FailedToParseContentType = INTERNAL_SERVER_ERROR
    ∧ Error.status_code Error.CouldNotDetermineImageSize = INTERNAL_SERVER_ERROR
    ∧ Error.status_code Error.FailedToConsumeBytes = INTERNAL_SERVER_ERROR
    ∧ Error.status_code Error.FailedToConsumeText = INTERNAL_SERVER_ERROR
    ∧ Error.status_code Error.MetaSelectionFailed = INTERNAL_SERVER_ERROR
    ∧ Error.status_code Error.ConversionFailed = INTERNAL_SERVER_ERROR
    ∧ Error.status_code Error.ReqwestFailed = INTERNAL_SERVER_ERROR
    ∧ Error.status_code Error.LabelMe = INTERNAL_SERVER_ERROR := by
  refine ⟨rfl, rfl, rfl, rfl, rfl, rfl, rfl, rfl, rfl, rfl, rfl⟩

/-- C4: generate_special never returns a propagating error - every input
yields Ok - and a matched rule that cannot complete its required capture
yields the None variant: a Bandcamp domain match with no video url, a
Bandcamp domain match whose video url has no track=/album= parameter, and
a url matching no rule at all, each resolve to Special::None. -/
theorem generate_special_total :
    (∀ m : Metadata, ∃ s : Special, m.generate_special = Except.ok s)
    ∧ Metadata.generate_special
        { metadataDefault with url := "https://artist.bandcamp.com/track/my-song" }
        = Except.ok Special.None
    ∧ Metadata.generate_special
        { metadataDefault with
          url := "https://artist.bandcamp.com/track/my-song",
          video := some { videoDefault with url := "https://bandcamp.com/EmbeddedPlayer/video" } }
        = Except.ok Special.None
    ∧ Metadata.generate_special { metadataDefault with url := "https://example.com/page" }
        = Except.ok Special.None := by
  refine ⟨?_, by decide, by decide, by decide⟩
  intro m
  unfold Metadata.generate_special
  repeat' first
  | exact ⟨_, rfl⟩
  | split

/-- C6 counterexample: with the Twitch channel fallback url
https://twitch.tv/someuser, tag-free HTML still yields is_none true, but
the special resolver returns the Twitch variant, not None, because it
classifies the fallback url itself. -/
theorem tag_free_special_counterexample :
    (Metadata.fromTags "https://twitch.tv/someuser" [] []).is_none = true
    ∧ (Metadata.fromTags "https://twitch.tv/someuser" [] []).generate_special
        = Except.ok (Special.Twitch TwitchType.Channel "someuser")
    ∧ Except.ok (Special.Twitch TwitchType.Channel "someuser")
        ≠ (Except.ok Special.None : Except Error Special) := by
  refine ⟨rfl, by decide, by decide⟩

/-- C6 as amended: for every fallback url, extraction from tag-free HTML
leaves title, description and image unset, so is_none is true; the
special resolver then classifies the fallback url itself, returning None
exactly when that url matches no provider rule, as for
https://example.com/. -/
theorem tag_free_html_amended :
    (∀ url : String,
      (Metadata.fromTags url [] []).title = none
      ∧ (Metadata.fromTags url [] []).description = none
      ∧ (Metadata.fromTags url [] []).image = none
      ∧ (Metadata.fromTags url [] []).is_none = true)
    ∧ (Metadata.fromTags "https://example.com/" [] []).generate_special
        = Except.ok Special.None := by
  refine ⟨fun url => ⟨rfl, rfl, rfl, rfl⟩, by decide⟩

/-- C5: in the tag scan, title, description, image url and video url are
first-capture-wins - once set, no later tag changes them, and a tag seen
while they are unset captures its value - while image and video width and
height, the colour and the og:url canonical override always take the
value of the latest tag seen. -/
theorem tag_scan_first_last_wins (m : Metadata) (ps qs : List (String × String)) (t u v : String) :
    ((processTags m ps).title = some t → (processTags m (ps ++ qs)).title = some t)
    ∧ ((processTags m ps).description = some t → (processTags m (ps ++ qs)).description = some t)
    ∧ (∀ i : Image, (processTags m ps).image = some i →
        ∃ i2 : Image, (processTags m (ps ++ qs)).image = some i2 ∧ i2.url = i.url)
    ∧ (∀ w : Video, (processTags m ps).video = some w →
        ∃ w2 : Video, (processTags m (ps ++ qs)).video = some w2 ∧ w2.url = w.url)
    ∧ ((processTags m ps).title = none →
        (processTags m (ps ++ [("og:title", t)])).title = some t)
    ∧ ((processTags m ps).description = none →
        (processTags m (ps ++ [("og:description", t)])).description = some t)
    ∧ ((processTags m ps).image = none →
        (processTags m (ps ++ [("og:image", u)])).image
          = some { url := u, width := 0, height := 0, size := ImageSize.Preview })
    ∧ ((processTags m ps).video = none →
        (processTags m (ps ++ [("og:video", u)])).video
          = some { url := u, width := 0, height := 0 })
    ∧ ((processTags m (ps ++ [("og:image:width", v)])).image.map Image.width
        = some (parseIsizeOrZero v))
    ∧ ((processTags m (ps ++ [("og:image:height", v)])).image.map Image.height
        = some (parseIsizeOrZero v))
    ∧ ((processTags m (ps ++ [("og:video:width", v)])).video.map Video.width
        = some (parseIsizeOrZero v))
    ∧ ((processTags m (ps ++ [("og:video:height", v)])).video.map Video.height
        = some (parseIsizeOrZero v))
    ∧ ((processTags m (ps ++ [("theme-color", v)])).colour = some v)
    ∧ ((processTags m (ps ++ [("og:url", v)])).url = v) := by
  refine ⟨?_, ?_, ?_, ?_, ?_, ?_, ?_, ?_, ?_, ?_, ?_, ?_, ?_, ?_⟩
  · intro h; rw [processTags_append]; exact processTags_title qs _ h
  · intro h; rw [processTags_append]; exact processTags_description qs _ h
  · intro i h; rw [processTags_append]; exact processTags_image qs _ h
  · intro w h; rw [processTags_append]; exact processTags_video qs _ h
  · intro h; rw [processTags_append]; exact tagStep_og_title _ t h
  · intro h; rw [processTags_append]; exact tagStep_og_description _ t h
  · intro h; rw [processTags_append]; exact tagStep_og_image_new _ u h
  · intro h; rw [processTags_append]; exact tagStep_og_video_new _ u h
  · rw [processTags_append]; rfl
  · rw [processTags_append]; rfl
  · rw [processTags_append]; rfl
  · rw [processTags_append]; rfl
  · rw [processTags_append]; rfl
  · rw [processTags_append]; rfl

theorem tag_scan_first_last_wins_witness :
    (processTags metadataDefault ([("og:title", "A")] ++ [("og:title", "B")])).title = some "A"
    ∧ (processTags metadataDefault ([("og:title", "A")] ++ [("og:url", "u2")])).url = "u2" := by
  constructor
  · exact (tag_scan_first_last_wins metadataDefault [("og:title", "A")] [("og:title", "B")]
      "A" "x" "y").1 (by rfl)
  · exact (tag_scan_first_last_wins metadataDefault [("og:title", "A")] [] "A" "x"
      "u2").2.2.2.2.2.2.2.2.2.2.2.2.2

/-- C7: when the image already carries positive width and height from the
page, resolve_image is a no-op: it issues zero fetch calls and returns
the metadata unchanged. -/
theorem resolve_image_trusts_declared {R : Type} (fetch : String → Except Error R)
    (consume_size : R → Except Error (Int × Int)) (m : Metadata) (i : Image)
    (him : m.image = some i) (hw : 0 < i.width) (hh : 0 < i.height) :
    Metadata.resolve_image fetch consume_size m = (Except.ok (), m, 0) :=
  resolve_image_nonzero fetch consume_size m i him ⟨ne_of_gt hw, ne_of_gt hh⟩

theorem resolve_image_trusts_declared_witness :
    Metadata.resolve_image
      (fun _ : String => (Except.error Error.ReqwestFailed : Except Error Unit))
      (fun _ => Except.error Error.CouldNotDetermineImageSize)
      { metadataDefault with
        image := some { url := "i", width := 3, height := 2, size := ImageSize.Preview } }
      = (Except.ok (),
         { metadataDefault with
           image := some { url := "i", width := 3, height := 2, size := ImageSize.Preview } },
         0) :=
  resolve_image_trusts_declared _ _ _
    { url := "i", width := 3, height := 2, size := ImageSize.Preview } rfl (by decide) (by decide)

/-- C8: when resolve_image fails - secondary fetch or dimension decoding -
resolve_external removes the image entirely and propagates no error (it
returns a plain Metadata); and when the dimension decoder only ever
reports positive sizes, the final output never carries an image with a
zero dimension. -/
theorem resolve_image_failure_drops_image {R : Type} (fetch : String → Except Error R)
    (consume_size : R → Except Error (Int × Int)) (m : Metadata) :
    (exceptIsErr (Metadata.resolve_image fetch consume_size m).1 = true →
      (Metadata.resolve_external fetch consume_size m).image = none)
    ∧ ((∀ r w h, consume_size r = Except.ok (w, h) → 0 < w ∧ 0 < h) →
        ∀ i : Image, (Metadata.resolve_external fetch consume_size m).image = some i →
          i.width ≠ 0 ∧ i.height ≠ 0) := by
  constructor
  · exact resolve_external_err fetch consume_size m
  · intro hcs i hi
    unfold Metadata.resolve_external at hi
    cases hg : m.generate_special with
    | ok sp =>
      simp only [hg, resolve_image_special] at hi
      rcases htri : Metadata.resolve_image fetch consume_size m with ⟨r1, m2, n⟩
      rw [htri] at hi
      cases r1 with
      | error e => simp at hi
      | ok v =>
        simp only [] at hi
        apply resolve_image_image_cases fetch consume_size m i hcs
        · rw [htri]; rfl
        · rw [htri]; simpa using hi
    | error e0 =>
      simp only [hg] at hi
      rcases htri : Metadata.resolve_image fetch consume_size m with ⟨r1, m2, n⟩
      rw [htri] at hi
      cases r1 with
      | error e => simp at hi
      | ok v =>
        apply resolve_image_image_cases fetch consume_size m i hcs
        · rw [htri]; rfl
        · rw [htri]; simpa using hi

theorem resolve_image_failure_drops_image_witness :
    (Metadata.resolve_external
      (fun _ : String => (Except.error Error.ReqwestFailed : Except Error Unit))
      (fun _ => Except.error Error.CouldNotDetermineImageSize)
      { metadataDefault with
        image := some { url := "i", width := 0, height := 0, size := ImageSize.Preview } }).image
      = none
    ∧ ((2 : Int) ≠ 0 ∧ (3 : Int) ≠ 0) := by
  constructor
  · exact (resolve_image_failure_drops_image _ _ _).1 (by decide)
  · exact (resolve_image_failure_drops_image (fun _ : String => (Except.ok () : Except Error Unit))
      (fun _ => (Except.ok ((2 : Int), (3 : Int)) : Except Error (Int × Int)))
      { metadataDefault with
        image := some { url := "i", width := 0, height := 0, size := ImageSize.Preview } }).2
      (by intro r w h hh; injection hh with hh2; injection hh2 with hw hhh; rw [← hw, ← hhh]; constructor <;> decide)
      { url := "i", width := 2, height := 3, size := ImageSize.Preview } (by decide)

/-- C9: an og:image:width, og:image:height or twitter:card with value
summary_large_image arriving while no image is set creates the image
record itself with an empty url, so the image field becomes set and
is_none turns false although no image url was ever declared. -/
theorem dimension_tags_create_image (m : Metadata) (v : String) (him : m.image = none) :
    (tagStep m ("og:image:width", v)).image
      = some { url := "", width := parseIsizeOrZero v, height := 0, size := ImageSize.Preview }
    ∧ (tagStep m ("og:image:width", v)).is_none = false
    ∧ (tagStep m ("og:image:height", v)).image
      = some { url := "", width := 0, height := parseIsizeOrZero v, size := ImageSize.Preview }
    ∧ (tagStep m ("og:image:height", v)).is_none = false
    ∧ (tagStep m ("twitter:card", "summary_large_image")).image
      = some { url := "", width := 0, height := 0, size := ImageSize.Large }
    ∧ (tagStep m ("twitter:card", "summary_large_image")).is_none = false := by
  have e1 : tagStep m ("og:image:width", v)
      = { m with
          image := some { m.image.getD imageDefault with width := parseIsizeOrZero v } } := rfl
  have e2 : tagStep m ("og:image:height", v)
      = { m with
          image := some { m.image.getD imageDefault with height := parseIsizeOrZero v } } := rfl
  have e3 : tagStep m ("twitter:card", "summary_large_image")
      = { m with
          image := some { m.image.getD imageDefault with size := ImageSize.Large } } := rfl
  refine ⟨?_, ?_, ?_, ?_, ?_, ?_⟩
  · rw [e1, him]; rfl
  · rw [e1, him]; simp [Metadata.is_none]
  · rw [e2, him]; rfl
  · rw [e2, him]; simp [Metadata.is_none]
  · rw [e3, him]; rfl
  · rw [e3, him]; simp [Metadata.is_none]

theorem dimension_tags_create_image_witness :
    (tagStep metadataDefault ("og:image:width", "120")).image
      = some { url := "", width := 120, height := 0, size := ImageSize.Preview }
    ∧ (tagStep metadataDefault ("og:image:width", "120")).is_none = false := by
  have h := dimension_tags_create_image metadataDefault "120" rfl
  exact ⟨by rw [h.1]; decide, h.2.1⟩

/-- C10: the icon_url field is never assigned: extraction always leaves it
none - the first icon or apple-touch-icon link overwrites the fallback
canonical url instead, as the third conjunct shows for documents with no
og:url tag - and resolve_external preserves whatever icon_url held. -/
theorem icon_url_never_set {R : Type} (fetch : String → Except Error R)
    (consume_size : R → Except Error (Int × Int)) (url h : String)
    (links metas : List (String × String)) (m : Metadata) :
    (Metadata.fromTags url links metas).icon_url = none
    ∧ (Metadata.resolve_external fetch consume_size m).icon_url = m.icon_url
    ∧ (findIconHref links = some h → (∀ p ∈ metas, p.1 ≠ "og:url") →
        (Metadata.fromTags url links metas).url = h) := by
  refine ⟨?_, ?_, ?_⟩
  · unfold Metadata.fromTags
    rw [processTags_icon]
    rfl
  · cases hg : m.generate_special with
    | ok sp =>
      unfold Metadata.resolve_external
      simp only [hg, resolve_image_special]
      rcases htri : Metadata.resolve_image fetch consume_size m with ⟨r1, m2, n⟩
      have hic : m2.icon_url = m.icon_url := by
        have hh := resolve_image_icon fetch consume_size m
        rw [htri] at hh
        exact hh
      cases r1 with
      | ok v => simpa using hic
      | error e => simpa using hic
    | error e0 =>
      unfold Metadata.resolve_external
      simp only [hg]
      rcases htri : Metadata.resolve_image fetch consume_size m with ⟨r1, m2, n⟩
      have hic : m2.icon_url = m.icon_url := by
        have hh := resolve_image_icon fetch consume_size m
        rw [htri] at hh
        exact hh
      cases r1 with
      | ok v => simpa using hic
      | error e => simpa using hic
  · intro hicon hno
    unfold Metadata.fromTags
    rw [processTags_url _ _ hno, hicon]
    rfl

theorem icon_url_never_set_witness :
    (Metadata.fromTags "https://fallback.example/" [("stylesheet", "s.css"), ("icon", "https://a.example/i.png")]
      [("og:title", "T")]).icon_url = none
    ∧ (Metadata.resolve_external
        (fun _ : String => (Except.error Error.ReqwestFailed : Except Error Unit))
        (fun _ => Except.error Error.CouldNotDetermineImageSize)
        metadataDefault).icon_url = metadataDefault.icon_url
    ∧ (Metadata.fromTags "https://fallback.example/"
        [("stylesheet", "s.css"), ("icon", "https://a.example/i.png")]
        [("og:title", "T")]).url = "https://a.example/i.png" := by
  have h := icon_url_never_set
    (fun _ : String => (Except.error Error.ReqwestFailed : Except Error Unit))
    (fun _ => Except.error Error.CouldNotDetermineImageSize)
    "https://fallback.example/" "https://a.example/i.png"
    [("stylesheet", "s.css"), ("icon", "https://a.example/i.png")]
    [("og:title", "T")] metadataDefault
  exact ⟨h.1, h.2.1, h.2.2 (by decide) (by decide)⟩
